import Mathlib

/-!
Verification of `scripts/validate-artifacthub-annotations.py`.

The script validates `artifacthub.io/*` annotations in Chart.yaml files.
We give a shallow embedding: parsed YAML documents become the inductive
type `Yaml`; Python dicts become association lists with string keys (the
dicts produced by the YAML parser have unique keys, and every lookup
takes the first matching entry); the external YAML parser
(`yaml.safe_load`) is abstracted as a function
`parse : String → Except String Yaml`, where `.ok .null` stands for the
Python value `None` and `.error e` for a raised `YAMLError` whose string
form is `e`.  All validator functions are translated line by line from
the source; error message strings are reproduced verbatim.
-/

set_option maxRecDepth 40000

namespace ArtifactHub

/-- A parsed YAML document as produced by `yaml.safe_load`:
scalars (string, integer, boolean, null), sequences, and mappings with
string keys.  Mappings are association lists; the parser never produces
duplicate keys. -/
inductive Yaml where
  | str (s : String)
  | int (n : Int)
  | bool (b : Bool)
  | null
  | list (xs : List Yaml)
  | map (kvs : List (String × Yaml))

/-- Python `type(v).__name__` for a parsed YAML value. -/
def pyTypeName : Yaml → String
  | .str _ => "str"
  | .int _ => "int"
  | .bool _ => "bool"
  | .null => "NoneType"
  | .list _ => "list"
  | .map _ => "dict"

/-- Python truthiness of a parsed YAML value (`if not annotations`,
`if category`): `None`, `False`, `0`, `""`, `[]` and the empty dict are
falsy, everything else is truthy. -/
def pyTruthy : Yaml → Bool
  | .str s => s ≠ ""
  | .int n => n ≠ 0
  | .bool b => b
  | .null => false
  | .list xs => ¬ xs.isEmpty
  | .map kvs => ¬ kvs.isEmpty

mutual
/-- Python `repr` of a parsed YAML value (used by `str` on containers).
Scalar cases are exact; for strings we always use single quotes, which
matches Python whenever the string contains no quote or escape. -/
def pyRepr : Yaml → String
  | .str s => "'" ++ s ++ "'"
  | .int n => toString n
  | .bool true => "True"
  | .bool false => "False"
  | .null => "None"
  | .list xs => "[" ++ String.intercalate ", " (pyReprList xs) ++ "]"
  | .map kvs => "\x7b" ++ String.intercalate ", " (pyReprPairs kvs) ++ "\x7d"

/-- Python `repr` of each element of a list. -/
def pyReprList : List Yaml → List String
  | [] => []
  | x :: xs => pyRepr x :: pyReprList xs

/-- Python `repr` of each `key: value` pair of a dict. -/
def pyReprPairs : List (String × Yaml) → List String
  | [] => []
  | (k, v) :: rest => ("'" ++ k ++ "': " ++ pyRepr v) :: pyReprPairs rest
end

/-- Python `str(v)` for a parsed YAML value: identity on strings,
`repr` otherwise. -/
def pyStr : Yaml → String
  | .str s => s
  | v => pyRepr v

/-- Python `key in d` / `d[key]` on a dict with string keys: the value
at the first matching key, if any. -/
def dictGet (k : String) : List (String × Yaml) → Option Yaml
  | [] => none
  | (k₁, v) :: rest => if k₁ = k then some v else dictGet k rest

/-- Removing a key from a dict (used to state the claim that deleting
the `annotations` block preserves validity). -/
def removeKey (k : String) : List (String × Yaml) → List (String × Yaml)
  | [] => []
  | (k₁, v) :: rest =>
      if k₁ = k then removeKey k rest else (k₁, v) :: removeKey k rest

/-- Python `'\t' in content`. -/
def pyContainsChar (s : String) (c : Char) : Bool :=
  s.data.contains c

/-- Python `str.lower()`, for the ASCII strings this script handles:
lower-case every character. -/
def pyLower (s : String) : String :=
  ⟨s.data.map Char.toLower⟩

/-- A character Python `str.strip()` removes: ASCII whitespace. -/
def isPyWhitespace (c : Char) : Bool :=
  c = ' ' ∨ c = '\t' ∨ c = '\n' ∨ c = '\r' ∨ c = '\x0b' ∨ c = '\x0c'

/-- Python `not s.strip()`: every character of `s` is whitespace. -/
def isBlank (s : String) : Bool :=
  s.data.all isPyWhitespace

/-- Lexicographic comparison of character lists by code point — the
order Python `sorted` uses on strings. -/
def charListLt : List Char → List Char → Bool
  | [], [] => false
  | [], _ :: _ => true
  | _ :: _, [] => false
  | a :: as, b :: bs =>
      if a.toNat < b.toNat then true
      else if b.toNat < a.toNat then false
      else charListLt as bs

/-- Python `a < b` on strings. -/
def strLtB (a b : String) : Bool :=
  charListLt a.data b.data

/-- The set `VALID_CHANGE_KINDS`, in source order. -/
def VALID_CHANGE_KINDS : List String :=
  ["added", "changed", "deprecated", "removed", "fixed", "security"]

/-- The list `sorted(VALID_CHANGE_KINDS)`: the same six strings in
ascending lexicographic order. -/
def sortedChangeKinds : List String :=
  ["added", "changed", "deprecated", "fixed", "removed", "security"]

/-- The `valid_categories` set of `validate_category`, in source order. -/
def VALID_CATEGORIES : List String :=
  ["ai-machine-learning", "database", "integration-delivery",
   "monitoring-logging", "networking", "security", "storage",
   "streaming-messaging", "skip-prediction"]

/-- The list `sorted(valid_categories)`: the same nine strings in
ascending lexicographic order. -/
def sortedCategories : List String :=
  ["ai-machine-learning", "database", "integration-delivery",
   "monitoring-logging", "networking", "security", "skip-prediction",
   "storage", "streaming-messaging"]

/-- The error-message part common to all per-element `changes` errors:
`f"  artifacthub.io/changes[{i}]"`. -/
def changesIdx (i : Nat) : String :=
  "  artifacthub.io/changes[" ++ toString i

/-- A per-element `changes` error message:
`f"  artifacthub.io/changes[{i}]: {tail}"`. -/
def changeMsg (i : Nat) (tail : String) : String :=
  changesIdx i ++ "]: " ++ tail

/-- A per-link `changes` error message:
`f"  artifacthub.io/changes[{i}].links[{j}]: {tail}"`. -/
def linkMsg (i j : Nat) (tail : String) : String :=
  changesIdx i ++ "].links[" ++ toString j ++ "]: " ++ tail

/-- Membership of a parsed value in `VALID_CHANGE_KINDS`, as the Python
test `change['kind'] not in VALID_CHANGE_KINDS` (source line 71)
evaluates it for hashable values: only the six kind strings are
members.  For unhashable values (lists and dicts) that Python test does
not return at all — it raises `TypeError` — so this function is only
used for the completed-run fragment; `kindErrorsE` models the raising
behaviour. -/
def isValidKind : Yaml → Bool
  | .str s => s ∈ VALID_CHANGE_KINDS
  | _ => false

/-- The `kind` checks of `validate_changes` for one object element
(source lines 68–75), in the completed-run model, which treats an
unhashable `kind` value as a plain non-member; the exception-aware
`kindErrorsE` models the `TypeError` such a value actually raises. -/
def kindErrors (i : Nat) (m : List (String × Yaml)) : List String :=
  match dictGet "kind" m with
  | none => [changeMsg i "Missing required field 'kind'"]
  | some v =>
      if isValidKind v then []
      else [changeMsg i ("Invalid kind '" ++ pyStr v ++ "'. Must be one of: "
              ++ String.intercalate ", " sortedChangeKinds)]

/-- The `description` checks of `validate_changes` for one object
element (source lines 77–83): `not change['description'].strip()`
holds exactly when the string is all whitespace. -/
def descriptionErrors (i : Nat) (m : List (String × Yaml)) : List String :=
  match dictGet "description" m with
  | none => [changeMsg i "Missing required field 'description'"]
  | some (.str s) =>
      if isBlank s then [changeMsg i "'description' cannot be empty"] else []
  | some _ => [changeMsg i "'description' must be a string"]

/-- The check for one entry of a `links` list (source lines 90–94). -/
def linkErrors (i j : Nat) (link : Yaml) : List String :=
  match link with
  | .map lm =>
      if (dictGet "name" lm).isNone || (dictGet "url" lm).isNone then
        [linkMsg i j "Must have 'name' and 'url'"]
      else []
  | _ => [linkMsg i j "Must be an object"]

/-- The loop `for j, link in enumerate(change['links'])`, started at
index `j`. -/
def linksLoop (i j : Nat) : List Yaml → List String
  | [] => []
  | l :: ls => linkErrors i j l ++ linksLoop i (j + 1) ls

/-- The optional `links` checks of `validate_changes` for one object
element (source lines 85–94). -/
def linksErrors (i : Nat) (m : List (String × Yaml)) : List String :=
  match dictGet "links" m with
  | none => []
  | some (.list ls) => linksLoop i 0 ls
  | some _ => [changeMsg i "'links' must be a list"]

/-- The body of the `for i, change in enumerate(changes)` loop for one
element (source lines 59–94). -/
def validateChange (i : Nat) (change : Yaml) : List String :=
  match change with
  | .str _ => []
  | .map m => kindErrors i m ++ descriptionErrors i m ++ linksErrors i m
  | other => [changeMsg i ("Must be a string or object, got " ++ pyTypeName other)]

/-- The loop `for i, change in enumerate(changes)`, started at
index `i`. -/
def changesLoop (i : Nat) : List Yaml → List String
  | [] => []
  | c :: cs => validateChange i c ++ changesLoop (i + 1) cs

/-- Function `validate_changes` (source lines 42–96); the YAML parser is passed
in as `parse`, and the unused `filename` parameter is dropped.  This is
the completed-run model; `validate_changesE` additionally models the
`TypeError` raised when an object element carries an unhashable `kind`
value, which aborts the run. -/
def validate_changes (parse : String → Except String Yaml)
    (changes_yaml : String) : List String :=
  match parse changes_yaml with
  | .error e => ["  artifacthub.io/changes: Invalid YAML syntax - " ++ e]
  | .ok .null => []
  | .ok (.list cs) => changesLoop 0 cs
  | .ok other => ["  artifacthub.io/changes: Must be a list, got " ++ pyTypeName other]

/-- Python hashability of a parsed YAML value: scalars are hashable,
lists and dicts are not. -/
def isHashable : Yaml → Bool
  | .list _ => false
  | .map _ => false
  | _ => true

/-- The `kind` checks for one object element (source lines 68–75) in
the exception-aware model: for an unhashable `kind` value the
membership test of line 71 raises `TypeError` before any error can be
appended; for a hashable value it agrees with `kindErrors`. -/
def kindErrorsE (i : Nat) (m : List (String × Yaml)) : Except String (List String) :=
  match dictGet "kind" m with
  | none => .ok [changeMsg i "Missing required field 'kind'"]
  | some v =>
      if isHashable v then
        .ok (if isValidKind v then []
             else [changeMsg i ("Invalid kind '" ++ pyStr v ++ "'. Must be one of: "
                     ++ String.intercalate ", " sortedChangeKinds)])
      else .error ("TypeError: unhashable type: '" ++ pyTypeName v ++ "'")

/-- The per-element loop body (source lines 59–94) in the
exception-aware model: only the `kind` membership test can raise, and
when it does the description and links checks of the element never
run. -/
def validateChangeE (i : Nat) (change : Yaml) : Except String (List String) :=
  match change with
  | .str _ => .ok []
  | .map m =>
      match kindErrorsE i m with
      | .error e => .error e
      | .ok ks => .ok (ks ++ descriptionErrors i m ++ linksErrors i m)
  | other => .ok [changeMsg i ("Must be a string or object, got " ++ pyTypeName other)]

/-- The element loop in the exception-aware model: a raise in one
element propagates, discarding the errors accumulated so far and
skipping all later elements — exactly what an uncaught Python
exception does. -/
def changesLoopE (i : Nat) : List Yaml → Except String (List String)
  | [] => .ok []
  | c :: cs =>
      match validateChangeE i c with
      | .error e => .error e
      | .ok errs =>
          match changesLoopE (i + 1) cs with
          | .error e => .error e
          | .ok rest => .ok (errs ++ rest)

/-- Function `validate_changes` in the exception-aware model: the
result is the error list when the run completes, and the uncaught
`TypeError` when an unhashable `kind` value aborts it. -/
def validate_changesE (parse : String → Except String Yaml)
    (changes_yaml : String) : Except String (List String) :=
  match parse changes_yaml with
  | .error e => .ok ["  artifacthub.io/changes: Invalid YAML syntax - " ++ e]
  | .ok .null => .ok []
  | .ok (.list cs) => changesLoopE 0 cs
  | .ok other => .ok ["  artifacthub.io/changes: Must be a list, got " ++ pyTypeName other]

/-- Whether validating this change element avoids the `TypeError` of
source line 71: true unless the element is an object whose `kind`
value is unhashable. -/
def changeKindHashable : Yaml → Bool
  | .map m =>
      match dictGet "kind" m with
      | some v => isHashable v
      | none => true
  | _ => true

/-- The body of the per-element loop of `validate_images`
(source lines 116–122). -/
def validateImage (i : Nat) (image : Yaml) : List String :=
  match image with
  | .map m =>
      if (dictGet "image" m).isNone then
        ["  artifacthub.io/images[" ++ toString i ++ "]: Missing required field 'image'"]
      else []
  | _ => ["  artifacthub.io/images[" ++ toString i ++ "]: Must be an object"]

/-- The loop `for i, image in enumerate(images)`, started at index `i`. -/
def imagesLoop (i : Nat) : List Yaml → List String
  | [] => []
  | x :: xs => validateImage i x ++ imagesLoop (i + 1) xs

/-- Function `validate_images` (source lines 99–124). -/
def validate_images (parse : String → Except String Yaml)
    (images_yaml : String) : List String :=
  match parse images_yaml with
  | .error e => ["  artifacthub.io/images: Invalid YAML syntax - " ++ e]
  | .ok .null => []
  | .ok (.list xs) => imagesLoop 0 xs
  | .ok other => ["  artifacthub.io/images: Must be a list, got " ++ pyTypeName other]

/-- The body of the per-element loop of `validate_links`
(source lines 144–152). -/
def validateLink (i : Nat) (link : Yaml) : List String :=
  match link with
  | .map m =>
      (if (dictGet "name" m).isNone then
        ["  artifacthub.io/links[" ++ toString i ++ "]: Missing required field 'name'"]
      else []) ++
      (if (dictGet "url" m).isNone then
        ["  artifacthub.io/links[" ++ toString i ++ "]: Missing required field 'url'"]
      else [])
  | _ => ["  artifacthub.io/links[" ++ toString i ++ "]: Must be an object"]

/-- The loop `for i, link in enumerate(links)`, started at index `i`. -/
def topLinksLoop (i : Nat) : List Yaml → List String
  | [] => []
  | x :: xs => validateLink i x ++ topLinksLoop (i + 1) xs

/-- Function `validate_links` (source lines 127–154). -/
def validate_links (parse : String → Except String Yaml)
    (links_yaml : String) : List String :=
  match parse links_yaml with
  | .error e => ["  artifacthub.io/links: Invalid YAML syntax - " ++ e]
  | .ok .null => []
  | .ok (.list xs) => topLinksLoop 0 xs
  | .ok other => ["  artifacthub.io/links: Must be a list, got " ++ pyTypeName other]

/-- The body of the per-element loop of `validate_maintainers`
(source lines 174–182). -/
def validateMaintainer (i : Nat) (maintainer : Yaml) : List String :=
  match maintainer with
  | .map m =>
      (if (dictGet "name" m).isNone then
        ["  artifacthub.io/maintainers[" ++ toString i ++ "]: Missing required field 'name'"]
      else []) ++
      (if (dictGet "email" m).isNone then
        ["  artifacthub.io/maintainers[" ++ toString i ++ "]: Missing required field 'email'"]
      else [])
  | _ => ["  artifacthub.io/maintainers[" ++ toString i ++ "]: Must be an object"]

/-- The loop `for i, maintainer in enumerate(maintainers)`, started at
index `i`. -/
def maintainersLoop (i : Nat) : List Yaml → List String
  | [] => []
  | x :: xs => validateMaintainer i x ++ maintainersLoop (i + 1) xs

/-- Function `validate_maintainers` (source lines 157–184). -/
def validate_maintainers (parse : String → Except String Yaml)
    (maintainers_yaml : String) : List String :=
  match parse maintainers_yaml with
  | .error e => ["  artifacthub.io/maintainers: Invalid YAML syntax - " ++ e]
  | .ok .null => []
  | .ok (.list xs) => maintainersLoop 0 xs
  | .ok other => ["  artifacthub.io/maintainers: Must be a list, got " ++ pyTypeName other]

/-- Function `validate_category` (source lines 187–198); the unused `filename`
parameter is dropped. -/
def validate_category (category : String) : List String :=
  if category ∈ VALID_CATEGORIES then []
  else ["  artifacthub.io/category: Invalid category '" ++ category
          ++ "'. Must be one of: " ++ String.intercalate ", " sortedCategories]

/-- One iteration of the `for annotation_key, validator in
validators.items()` loop of `validate_chart_yaml` (source lines
242–246): if the key is present and its value is not `None`, run the
validator on `str(value)`. -/
def annotationCheck (parse : String → Except String Yaml)
    (kvs : List (String × Yaml)) (key : String)
    (validator : (String → Except String Yaml) → String → List String) :
    List String :=
  match dictGet key kvs with
  | none => []
  | some .null => []
  | some v => validator parse (pyStr v)

/-- The whole `validators` loop of `validate_chart_yaml` (source lines
235–246), in the dict's insertion order. -/
def knownAnnotationErrors (parse : String → Except String Yaml)
    (kvs : List (String × Yaml)) : List String :=
  annotationCheck parse kvs "artifacthub.io/changes" validate_changes ++
  annotationCheck parse kvs "artifacthub.io/images" validate_images ++
  annotationCheck parse kvs "artifacthub.io/links" validate_links ++
  annotationCheck parse kvs "artifacthub.io/maintainers" validate_maintainers

/-- The category step of `validate_chart_yaml` (source lines 248–252):
the category is validated only when present and truthy. -/
def categoryErrors (kvs : List (String × Yaml)) : List String :=
  match dictGet "artifacthub.io/category" kvs with
  | none => []
  | some cat => if pyTruthy cat then validate_category (pyStr cat) else []

/-- The `bool_annotations` list of `validate_chart_yaml`
(source lines 255–259), in source order. -/
def BOOL_ANNOTATIONS : List String :=
  ["artifacthub.io/containsSecurityUpdates",
   "artifacthub.io/operator",
   "artifacthub.io/prerelease"]

/-- One iteration of the boolean-flag loop (source lines 260–264):
`str(value).lower()` must be exactly `true` or `false`. -/
def boolAnnotationError (k : String) (kvs : List (String × Yaml)) :
    List String :=
  match dictGet k kvs with
  | none => []
  | some v =>
      if pyLower (pyStr v) = "true" ∨ pyLower (pyStr v) = "false" then []
      else ["  " ++ k ++ ": Must be 'true' or 'false', got '" ++ pyStr v ++ "'"]

/-- The boolean-flag loop over a list of keys. -/
def boolErrorsOf (keys : List String) (kvs : List (String × Yaml)) :
    List String :=
  match keys with
  | [] => []
  | k :: ks => boolAnnotationError k kvs ++ boolErrorsOf ks kvs

/-- The whole boolean-flag loop of `validate_chart_yaml`
(source lines 254–264). -/
def boolAnnotationErrors (kvs : List (String × Yaml)) : List String :=
  boolErrorsOf BOOL_ANNOTATIONS kvs

/-- Head-occurrence test: `needle` occurs at the start of `hay`. -/
def listStartsWith : List Char → List Char → Bool
  | [], _ => true
  | _ :: _, [] => false
  | a :: as, b :: bs => a = b && listStartsWith as bs

/-- Substring occurrence of `needle` anywhere in `hay`. -/
def listContainsSub (needle : List Char) : List Char → Bool
  | [] => listStartsWith needle []
  | l@(_ :: rest) => listStartsWith needle l || listContainsSub needle rest

/-- Python `key in v` when `v` is not a dict (source lines 243, 249
and 261): substring test on a string, element-equality test on a list,
and a `TypeError` on other values, which are not iterable. -/
def pyInNonDict (key : String) : Yaml → Except String Bool
  | .str s => .ok (listContainsSub key.data s.data)
  | .list xs => .ok (xs.any (fun y => match y with | .str t => t = key | _ => false))
  | v => .error ("TypeError: argument of type '" ++ pyTypeName v ++ "' is not iterable")

/-- The annotation keys `validate_chart_yaml` probes with `in`, in
source order (lines 235–261). -/
def ANNOTATION_PROBE_KEYS : List String :=
  ["artifacthub.io/changes", "artifacthub.io/images",
   "artifacthub.io/links", "artifacthub.io/maintainers",
   "artifacthub.io/category", "artifacthub.io/containsSecurityUpdates",
   "artifacthub.io/operator", "artifacthub.io/prerelease"]

/-- The `TypeError` raised by subscripting a truthy non-dict
annotations value with a string key (only strings and lists can reach
the subscript; other values already raise at the `in` probe). -/
def subscriptErrorMsg : Yaml → String
  | .str _ => "TypeError: string indices must be integers"
  | _ => "TypeError: list indices must be integers or slices, not str"

/-- The annotation stage on a truthy non-dict annotations value, in
the exception-aware model: each key is probed with `in` in source
order; a probe that raises aborts the program, a probe that succeeds
makes the subscript that follows it raise, and a run in which every
probe misses completes with no errors. -/
def probeKeys (ann : Yaml) : List String → Except String (List String)
  | [] => .ok []
  | k :: ks =>
      match pyInNonDict k ann with
      | .error e => .error e
      | .ok true => .error (subscriptErrorMsg ann)
      | .ok false => probeKeys ann ks

/-- The annotation stage of `validate_chart_yaml` (source lines
230–264), applied to the value of `chart.get('annotations', \x7b\x7d)`.
A falsy value (absent key, `None`, empty dict, ...) yields no errors.
For a truthy non-dict value Python probes each fixed key with `in`: on
a non-iterable scalar the probe itself raises `TypeError`, on a string
or list a successful probe makes the subscript that follows raise, and
only when every probe misses does the program complete — with no
errors.  This function returns `[]` on that branch, i.e. the
completed-run behaviour; the raising runs are modelled by `probeKeys`
(and `probeKeys_ok` shows a completed probe run has no errors).  The
chart-level claims below all route through the dict or falsy
branches. -/
def annotationsErrors (parse : String → Except String Yaml)
    (annotations : Yaml) : List String :=
  if pyTruthy annotations then
    match annotations with
    | .map kvs =>
        knownAnnotationErrors parse kvs ++ categoryErrors kvs ++
          boolAnnotationErrors kvs
    | _ => []
  else []

/-- The part of `validate_chart_yaml` that inspects the parsed document
(source lines 216–264): parse failure, `None` document and non-mapping
document are terminal; otherwise the annotation checks run on
`chart.get('annotations', \x7b\x7d)`. -/
def chartBodyErrors (parse : String → Except String Yaml)
    (doc : Except String Yaml) : List String :=
  match doc with
  | .error e => ["  Invalid YAML syntax: " ++ e]
  | .ok .null => ["  Empty Chart.yaml file"]
  | .ok (.map kvs) =>
      annotationsErrors parse ((dictGet "annotations" kvs).getD (.map []))
  | .ok other => ["  Chart.yaml must be a mapping, got " ++ pyTypeName other]

/-- The tab warning emitted when the raw content contains a tab
character (source lines 213–214). -/
def tabMsg : String := "  File contains tabs - use spaces for indentation"

/-- Body of `validate_chart_yaml` on a tab-flag / parse-result pair: the tab
warning comes first, then the document checks. -/
def chartDocErrors (parse : String → Except String Yaml) (hasTab : Bool)
    (doc : Except String Yaml) : List String :=
  (if hasTab then [tabMsg] else []) ++ chartBodyErrors parse doc

/-- Function `validate_chart_yaml` (source lines 201–266) on the raw file
content; the file-read step is abstracted away (the model assumes the
read succeeded) and `yaml.safe_load` is the `parse` argument. -/
def validate_chart_yaml (parse : String → Except String Yaml)
    (content : String) : List String :=
  chartDocErrors parse (pyContainsChar content '\t') (parse content)

/-- One command-line argument of `main` as the filesystem presents it:
the path string, its basename (`Path(filename).name`), whether the path
exists, and the content of the file when read. -/
structure PathArg where
  pathStr : String
  baseName : String
  fileExists : Bool
  content : String

/-- One iteration of the `for filename in sys.argv[1:]` loop of `main`
(source lines 277–296), threading the exit code and the printed lines:
a missing path prints a not-found line and sets the exit code; an
existing path whose basename is not `Chart.yaml` is skipped silently;
otherwise the file is validated and a success or failure report is
printed. -/
def processArg (parse : String → Except String Yaml)
    (acc : Nat × List String) (a : PathArg) : Nat × List String :=
  if ¬ a.fileExists then
    (1, acc.2 ++ ["❌ " ++ a.pathStr ++ ": File not found"])
  else if a.baseName ≠ "Chart.yaml" then acc
  else
    let errors := validate_chart_yaml parse a.content
    if errors.isEmpty then (acc.1, acc.2 ++ ["✅ " ++ a.pathStr ++ ": Valid"])
    else (1, acc.2 ++ (("❌ " ++ a.pathStr ++ ":") :: errors))

/-- Function `main` (source lines 269–298): `args` is `sys.argv[1:]`.  Returns
the exit status together with the printed lines. -/
def mainRun (parse : String → Except String Yaml) (args : List PathArg) :
    Nat × List String :=
  if args.isEmpty then
    (1, ["Usage: validate-artifacthub-annotations.py <Chart.yaml> [Chart.yaml ...]"])
  else args.foldl (processArg parse) (0, [])

/-- The per-argument failure condition of `main`: the path is missing,
or it is a `Chart.yaml` with validation errors. -/
def badB (parse : String → Except String Yaml) (a : PathArg) : Bool :=
  !a.fileExists || (a.baseName == "Chart.yaml" && !(validate_chart_yaml parse a.content).isEmpty)

/-- A concrete parse function for the sample documents exercised below:
each is mapped to the value the YAML parser produces for it, and every
other input is rejected. -/
def demoParse : String → Except String Yaml := fun s =>
  if s = "annotations:\n  artifacthub.io/category: ''\n" then
    .ok (.map [("annotations", .map [("artifacthub.io/category", .str "")])])
  else if s = "a: \"x\ty\"" then
    .ok (.map [("a", .str "x\ty")])
  else if s = "name: test\nannotations:\n  artifacthub.io/operator: \"true\"\n" then
    .ok (.map [("name", .str "test"),
               ("annotations", .map [("artifacthub.io/operator", .str "true")])])
  else if s = "name: test\n" then
    .ok (.map [("name", .str "test")])
  else if s = "- description: x" then
    .ok (.list [.map [("description", .str "x")]])
  else if s = "- kind: invalid\n  description: x" then
    .ok (.list [.map [("kind", .str "invalid"), ("description", .str "x")]])
  else if s = "- a\n- \x7b\x7d" then
    .ok (.list [.str "a", .map []])
  else if s = "- kind: [x]\n  description: y" then
    .ok (.list [.map [("kind", .list [.str "x"]), ("description", .str "y")]])
  else if s = "- kind: []\n  description: x\n- \x7b\x7d" then
    .ok (.list [.map [("kind", .list []), ("description", .str "x")], .map []])
  else .error "could not parse"

end ArtifactHub

namespace ArtifactHub

theorem str_append_left_cancel {a b c : String} (h : a ++ b = a ++ c) : b = c := by
  apply String.ext
  have hd := congrArg String.data h
  rw [String.data_append, String.data_append] at hd
  exact List.append_cancel_left hd

theorem changeMsg_tail_inj {i : Nat} {t u : String} (h : changeMsg i t = changeMsg i u) : t = u := by
  unfold changeMsg at h
  exact str_append_left_cancel h

theorem str_ne_of_head {a b : String} (h : a.data.head? ≠ b.data.head?) : a ≠ b :=
  fun e => h (by rw [e])

theorem changeMsg_ne_linkMsg (i j : Nat) (t u : String) : changeMsg i t ≠ linkMsg i j u := by
  intro h
  unfold changeMsg linkMsg at h
  have hd := congrArg String.data h
  simp only [String.data_append, List.append_assoc] at hd
  have h₂ := List.append_cancel_left hd
  simp only [List.cons_append, List.cons.injEq] at h₂
  exact absurd h₂.2.1 (by decide)

theorem mem_linksLoop {i : Nat} :
    ∀ (j : Nat) (ls : List Yaml) (e : String), e ∈ linksLoop i j ls →
      ∃ k t, e = linkMsg i k t := by
  intro j ls
  induction ls generalizing j with
  | nil => intro e h; simp [linksLoop] at h
  | cons l rest ih =>
      intro e h
      rw [linksLoop, List.mem_append] at h
      rcases h with h | h
      · unfold linkErrors at h
        rcases l with s | n | b | _ | xs | lm <;> simp at h <;>
          first
            | exact ⟨j, _, h⟩
            | (rcases h with ⟨_, h⟩; exact ⟨j, _, h⟩)
      · exact ih (j + 1) e h

theorem mem_descriptionErrors {i : Nat} {m : List (String × Yaml)} {e : String}
    (h : e ∈ descriptionErrors i m) :
    ∃ t, e = changeMsg i t ∧
      (t = "Missing required field 'description'" ∨
       t = "'description' must be a string" ∨
       t = "'description' cannot be empty") := by
  unfold descriptionErrors at h
  rcases hd : dictGet "description" m with _ | v
  · rw [hd] at h; simp at h
    exact ⟨_, h, Or.inl rfl⟩
  · rw [hd] at h
    rcases v with s | n | b | _ | xs | lm <;> simp at h
    · rcases hb : isBlank s <;> rw [hb] at h <;> simp at h
      exact ⟨_, h, Or.inr (Or.inr rfl)⟩
    all_goals exact ⟨_, h, Or.inr (Or.inl rfl)⟩

theorem mem_linksErrors {i : Nat} {m : List (String × Yaml)} {e : String}
    (h : e ∈ linksErrors i m) :
    e = changeMsg i "'links' must be a list" ∨ ∃ k t, e = linkMsg i k t := by
  unfold linksErrors at h
  rcases hd : dictGet "links" m with _ | v
  · rw [hd] at h; simp at h
  · rw [hd] at h
    rcases v with s | n | b | _ | xs | lm <;> simp at h <;>
      first
        | exact Or.inl h
        | exact Or.inr (mem_linksLoop 0 xs e (by assumption))

theorem changesLoop_decompose :
    ∀ (cs : List Yaml) (n k : Nat) (c : Yaml), cs[k]? = some c →
      ∃ pre post, changesLoop n cs = pre ++ validateChange (n + k) c ++ post := by
  intro cs
  induction cs with
  | nil => intro n k c h; simp at h
  | cons x xs ih =>
      intro n k c h
      cases k with
      | zero =>
          simp at h
          refine ⟨[], changesLoop (n + 1) xs, ?_⟩
          rw [h] at *
          simp [changesLoop]
      | succ k₁ =>
          simp only [List.getElem?_cons_succ] at h
          obtain ⟨pre, post, hd⟩ := ih (n + 1) k₁ c h
          refine ⟨validateChange n x ++ pre, post, ?_⟩
          have he : n + (k₁ + 1) = n + 1 + k₁ := by omega
          rw [changesLoop, hd, he]
          simp [List.append_assoc]

theorem changesLoop_append :
    ∀ (cs ds : List Yaml) (i : Nat),
      changesLoop i (cs ++ ds) = changesLoop i cs ++ changesLoop (i + cs.length) ds := by
  intro cs
  induction cs with
  | nil => intro ds i; simp [changesLoop]
  | cons x xs ih =>
      intro ds i
      have he : i + (xs.length + 1) = i + 1 + xs.length := by omega
      simp only [List.cons_append, changesLoop, ih, List.length_cons, List.append_assoc, he,
        List.append_eq]

theorem linksLoop_append :
    ∀ (ls ms : List Yaml) (i j : Nat),
      linksLoop i j (ls ++ ms) = linksLoop i j ls ++ linksLoop i (j + ls.length) ms := by
  intro ls
  induction ls with
  | nil => intro ms i j; simp [linksLoop]
  | cons x xs ih =>
      intro ms i j
      have he : j + (xs.length + 1) = j + 1 + xs.length := by omega
      simp only [List.cons_append, linksLoop, ih, List.length_cons, List.append_assoc, he,
        List.append_eq]

theorem validate_changes_of_list {parse : String → Except String Yaml}
    {s : String} {cs : List Yaml} (hp : parse s = .ok (.list cs)) :
    validate_changes parse s = changesLoop 0 cs := by
  unfold validate_changes
  rw [hp]

theorem validate_changesE_of_list {parse : String → Except String Yaml}
    {s : String} {cs : List Yaml} (hp : parse s = .ok (.list cs)) :
    validate_changesE parse s = changesLoopE 0 cs := by
  unfold validate_changesE
  rw [hp]

theorem validateChangeE_ok (i : Nat) :
    ∀ (c : Yaml), changeKindHashable c = true →
      validateChangeE i c = .ok (validateChange i c) := by
  intro c h
  cases c with
  | map m =>
      unfold changeKindHashable at h
      cases hd : dictGet "kind" m with
      | none =>
          simp [validateChangeE, validateChange, kindErrorsE, kindErrors, hd]
      | some v =>
          have h₀ : (match dictGet "kind" m with
            | some w => isHashable w
            | none => true) = true := h
          rw [hd] at h₀
          have h₁ : isHashable v = true := h₀
          simp [validateChangeE, validateChange, kindErrorsE, kindErrors, hd, h₁]
  | str s => rfl
  | int n => rfl
  | bool b => rfl
  | null => rfl
  | list xs => rfl

theorem changesLoopE_ok :
    ∀ (cs : List Yaml) (i : Nat), cs.all changeKindHashable = true →
      changesLoopE i cs = .ok (changesLoop i cs) := by
  intro cs
  induction cs with
  | nil => intro i _; rfl
  | cons c cs₁ ih =>
      intro i h
      simp only [List.all_cons, Bool.and_eq_true] at h
      unfold changesLoopE
      rw [validateChangeE_ok i c h.1, ih (i + 1) h.2]
      rfl

theorem changesLoopE_append :
    ∀ (cs ds : List Yaml) (i : Nat),
      changesLoopE i (cs ++ ds) =
        (changesLoopE i cs).bind
          (fun a => (changesLoopE (i + cs.length) ds).map (fun b => a ++ b)) := by
  intro cs
  induction cs with
  | nil =>
      intro ds i
      simp only [List.nil_append, List.length_nil, Nat.add_zero]
      cases h : changesLoopE i ds <;>
        simp [changesLoopE, Except.bind, Except.map, h]
  | cons x xs ih =>
      intro ds i
      have he : i + (xs.length + 1) = i + 1 + xs.length := by omega
      have hstep : changesLoopE i (x :: (xs ++ ds)) =
          match validateChangeE i x with
          | .error e => .error e
          | .ok errs =>
              match changesLoopE (i + 1) (xs ++ ds) with
              | .error e => .error e
              | .ok rest => .ok (errs ++ rest) := rfl
      have hstep₂ : changesLoopE i (x :: xs) =
          match validateChangeE i x with
          | .error e => .error e
          | .ok errs =>
              match changesLoopE (i + 1) xs with
              | .error e => .error e
              | .ok rest => .ok (errs ++ rest) := rfl
      rw [List.cons_append, hstep, hstep₂, ih, List.length_cons, he]
      cases hx : validateChangeE i x <;>
        cases h1 : changesLoopE (i + 1) xs <;>
          cases h2 : changesLoopE (i + 1 + xs.length) ds <;>
            simp [Except.bind, Except.map, List.append_assoc]

/-- Whenever the probe loop on a truthy non-dict annotations value
completes, it completes with no errors — matching the `[]` that
`annotationsErrors` returns on that branch. -/
theorem probeKeys_ok (ann : Yaml) :
    ∀ (ks : List String) (errs : List String),
      probeKeys ann ks = .ok errs → errs = [] := by
  intro ks
  induction ks with
  | nil =>
      intro errs h
      simp [probeKeys] at h
      exact h
  | cons k ks₁ ih =>
      intro errs h
      unfold probeKeys at h
      cases hp : pyInNonDict k ann <;> rw [hp] at h
      · exact absurd h (by simp)
      · rename_i b
        cases b
        · exact ih errs h
        · exact absurd h (by simp)

/-- Claim C5: for every changes annotation parsing to a list, every
element that is an object lacking the key `kind` contributes exactly
one missing-field error for `kind`, tagged with that element's index,
regardless of whether its `description` or `links` fields are present
or valid: the element's contribution to `validate_changes` starts with
the missing-kind message, which does not recur among the description
and links errors of that element. -/
theorem claim_C5 (parse : String → Except String Yaml) (s : String)
    (cs : List Yaml) (i : Nat) (m : List (String × Yaml))
    (hp : parse s = .ok (.list cs)) (hel : cs[i]? = some (.map m))
    (hk : dictGet "kind" m = none) :
    (∃ pre post, validate_changes parse s = pre ++ validateChange i (.map m) ++ post) ∧
    validateChange i (.map m) =
      changeMsg i "Missing required field 'kind'" ::
        (descriptionErrors i m ++ linksErrors i m) ∧
    changeMsg i "Missing required field 'kind'" ∉ descriptionErrors i m ++ linksErrors i m := by
  refine ⟨?_, ?_, ?_⟩
  · obtain ⟨pre, post, hd⟩ := changesLoop_decompose cs 0 i _ hel
    rw [Nat.zero_add] at hd
    exact ⟨pre, post, by rw [validate_changes_of_list hp, hd]⟩
  · simp [validateChange, kindErrors, hk]
  · intro hmem
    rcases List.mem_append.mp hmem with h | h
    · obtain ⟨t, he, ht⟩ := mem_descriptionErrors h
      have := changeMsg_tail_inj he
      rcases ht with rfl | rfl | rfl <;> exact absurd this (by decide)
    · rcases mem_linksErrors h with he | ⟨k, t, he⟩
      · exact absurd (changeMsg_tail_inj he) (by decide)
      · exact changeMsg_ne_linkMsg i k _ t he

/-- Claim C6 (amended): for every changes annotation parsing to a
list, every object element whose `kind` value is present, hashable (a
scalar), and not a member of the six valid change kinds contributes
exactly one invalid-kind error whose message lists all six valid
members in sorted alphabetical order (`sortedChangeKinds` is sorted
and is a permutation of `VALID_CHANGE_KINDS`); when no element of the
list has an unhashable `kind`, the whole run completes and that
element's block is spliced into the output.  The original claim also
covered unhashable `kind` values, but there the membership test of
source line 71 raises an uncaught `TypeError` and no invalid-kind
error is emitted — see the counterexample. -/
theorem claim_C6 (parse : String → Except String Yaml) (s : String)
    (cs : List Yaml) (i : Nat) (m : List (String × Yaml)) (v : Yaml)
    (hp : parse s = .ok (.list cs)) (hel : cs[i]? = some (.map m))
    (hk : dictGet "kind" m = some v) (hh : isHashable v = true)
    (hv : isValidKind v = false) :
    validateChangeE i (.map m) =
      .ok (changeMsg i ("Invalid kind '" ++ pyStr v ++ "'. Must be one of: "
          ++ String.intercalate ", " sortedChangeKinds) ::
        (descriptionErrors i m ++ linksErrors i m)) ∧
    validateChange i (.map m) =
      changeMsg i ("Invalid kind '" ++ pyStr v ++ "'. Must be one of: "
          ++ String.intercalate ", " sortedChangeKinds) ::
        (descriptionErrors i m ++ linksErrors i m) ∧
    changeMsg i ("Invalid kind '" ++ pyStr v ++ "'. Must be one of: "
        ++ String.intercalate ", " sortedChangeKinds)
      ∉ descriptionErrors i m ++ linksErrors i m ∧
    (cs.all changeKindHashable = true →
      validate_changesE parse s = .ok (changesLoop 0 cs) ∧
      ∃ pre post, changesLoop 0 cs = pre ++ validateChange i (.map m) ++ post) ∧
    String.intercalate ", " sortedChangeKinds
      = "added, changed, deprecated, fixed, removed, security" ∧
    List.Pairwise (fun a b => strLtB a b = true) sortedChangeKinds ∧
    sortedChangeKinds.Perm VALID_CHANGE_KINDS := by
  refine ⟨?_, ?_, ?_, ?_, by decide, by decide, by decide⟩
  · unfold validateChangeE kindErrorsE
    simp [hk, hh, hv]
  · simp [validateChange, kindErrors, hk, hv]
  · intro hmem
    have hI : ("Invalid kind '" ++ pyStr v ++ "'. Must be one of: "
        ++ String.intercalate ", " sortedChangeKinds).data.head? = some 'I' := by
      simp [String.data_append]
    rcases List.mem_append.mp hmem with h | h
    · obtain ⟨t, he, ht⟩ := mem_descriptionErrors h
      have := changeMsg_tail_inj he
      rcases ht with rfl | rfl | rfl <;>
        exact str_ne_of_head (by rw [hI]; decide) this
    · rcases mem_linksErrors h with he | ⟨k, t, he⟩
      · exact str_ne_of_head (by rw [hI]; decide) (changeMsg_tail_inj he)
      · exact changeMsg_ne_linkMsg i k _ t he
  · intro hall
    refine ⟨?_, ?_⟩
    · rw [validate_changesE_of_list hp, changesLoopE_ok cs 0 hall]
    · obtain ⟨pre, post, hd⟩ := changesLoop_decompose cs 0 i _ hel
      rw [Nat.zero_add] at hd
      exact ⟨pre, post, hd⟩

/-- Claim C9 (amended): changes validation accumulates appended errors
rather than short-circuiting.  In the exception-aware model the
element loop distributes over list concatenation through `bind` — an
element's appended errors never suppress later elements, and only a
raised `TypeError` propagates; on a list where no object element has
an unhashable `kind` value the run completes and equals the total
model, which visits every element (and every nested link) and tags
each contribution with its index.  The original claim asserted the
no-suppression property for all lists, but an unhashable `kind` value
raises at source line 71 and aborts the loop, losing the errors of all
later elements — see the counterexample. -/
theorem claim_C9 (i j : Nat) (cs ds ls ms : List Yaml) :
    changesLoopE i (cs ++ ds) =
      (changesLoopE i cs).bind
        (fun a => (changesLoopE (i + cs.length) ds).map (fun b => a ++ b)) ∧
    (cs.all changeKindHashable = true →
      changesLoopE i cs = .ok (changesLoop i cs)) ∧
    changesLoop i (cs ++ ds) = changesLoop i cs ++ changesLoop (i + cs.length) ds ∧
    linksLoop i j (ls ++ ms) = linksLoop i j ls ++ linksLoop i (j + ls.length) ms ∧
    (∀ (parse : String → Except String Yaml) (s : String),
       parse s = .ok (.list cs) → validate_changesE parse s = changesLoopE 0 cs) ∧
    (∀ (k : Nat) (c : Yaml), cs[k]? = some c →
       ∃ pre post, changesLoop 0 cs = pre ++ validateChange k c ++ post) ∧
    (∀ (m : List (String × Yaml)),
       validateChange i (.map m) = kindErrors i m ++ descriptionErrors i m ++ linksErrors i m) := by
  refine ⟨changesLoopE_append cs ds i, changesLoopE_ok cs i,
    changesLoop_append cs ds i, linksLoop_append ls ms i j,
    fun parse s hp => validate_changesE_of_list hp, fun k c h => ?_, fun m => rfl⟩
  obtain ⟨pre, post, hd⟩ := changesLoop_decompose cs 0 k c h
  rw [Nat.zero_add] at hd
  exact ⟨pre, post, hd⟩

end ArtifactHub

namespace ArtifactHub

theorem fold_fst (parse : String → Except String Yaml) :
    ∀ (args : List PathArg) (c : Nat) (out : List String),
      (args.foldl (processArg parse) (c, out)).fst =
        if args.any (badB parse) then 1 else c := by
  intro args
  induction args with
  | nil => intro c out; simp
  | cons a rest ih =>
      intro c out
      simp only [List.foldl_cons, List.any_cons]
      by_cases hf : a.fileExists
      · by_cases hb : a.baseName = "Chart.yaml"
        · rcases hemp : (validate_chart_yaml parse a.content).isEmpty
          · simp [processArg, badB, hf, hb, hemp, ih]
          · simp [processArg, badB, hf, hb, hemp, ih]
        · simp [processArg, badB, hf, hb, ih]
      · simp only [Bool.not_eq_true] at hf
        simp [processArg, badB, hf, ih]

theorem isEmpty_false_of_ne {α : Type} {l : List α} (h : l ≠ []) : l.isEmpty = false := by
  cases l with
  | nil => exact absurd rfl h
  | cons x xs => rfl

theorem mainRun_fst (parse : String → Except String Yaml) (args : List PathArg)
    (h : args ≠ []) :
    (mainRun parse args).fst = if args.any (badB parse) then 1 else 0 := by
  unfold mainRun
  rw [isEmpty_false_of_ne h]
  simpa using fold_fst parse args 0 []

theorem badB_iff (parse : String → Except String Yaml) (a : PathArg) :
    badB parse a = true ↔
      a.fileExists = false ∨ (a.fileExists = true ∧ a.baseName = "Chart.yaml" ∧
        validate_chart_yaml parse a.content ≠ []) := by
  unfold badB
  by_cases hf : a.fileExists
  · by_cases hb : a.baseName = "Chart.yaml"
    · by_cases he : validate_chart_yaml parse a.content = []
      · simp [hf, hb, he]
      · simp [hf, hb, he, isEmpty_false_of_ne he]
    · simp [hf, hb]
  · simp only [Bool.not_eq_true] at hf
    simp [hf]

/-- Claim C3: for every non-empty list of path arguments, the entry
point returns exit status 1 exactly when some argument does not exist
on disk or some existing argument named `Chart.yaml` produces a
non-empty error list; otherwise it returns 0 (the status is always 0 or
1), and an existing argument whose basename is not `Chart.yaml` leaves
the loop state untouched. -/
theorem claim_C3 (parse : String → Except String Yaml) (args : List PathArg)
    (h : args ≠ []) :
    ((mainRun parse args).fst = 1 ↔
      (∃ a ∈ args, a.fileExists = false) ∨
        ∃ a ∈ args, a.fileExists = true ∧ a.baseName = "Chart.yaml" ∧
          validate_chart_yaml parse a.content ≠ []) ∧
    ((mainRun parse args).fst = 0 ∨ (mainRun parse args).fst = 1) ∧
    (∀ (acc : Nat × List String) (b : PathArg), b.fileExists = true →
      b.baseName ≠ "Chart.yaml" → processArg parse acc b = acc) := by
  refine ⟨?_, ?_, ?_⟩
  · rw [mainRun_fst parse args h]
    constructor
    · intro h1
      rcases ha : args.any (badB parse)
      · rw [ha] at h1; simp at h1
      · obtain ⟨a, hmem, hbad⟩ := List.any_eq_true.mp ha
        rcases (badB_iff parse a).mp hbad with h₁ | h₁
        · exact Or.inl ⟨a, hmem, h₁⟩
        · exact Or.inr ⟨a, hmem, h₁⟩
    · intro hor
      have ha : args.any (badB parse) = true := by
        rcases hor with ⟨a, hmem, hx⟩ | ⟨a, hmem, hx⟩
        · exact List.any_eq_true.mpr ⟨a, hmem, (badB_iff parse a).mpr (Or.inl hx)⟩
        · exact List.any_eq_true.mpr ⟨a, hmem, (badB_iff parse a).mpr (Or.inr hx)⟩
      simp [ha]
  · rw [mainRun_fst parse args h]
    split
    · exact Or.inr rfl
    · exact Or.inl rfl
  · intro acc b hbf hbn
    simp [processArg, hbf, hbn]

theorem processArg_snd (parse : String → Except String Yaml)
    (acc : Nat × List String) (a : PathArg) :
    ∃ s, (processArg parse acc a).snd = acc.snd ++ s := by
  unfold processArg
  by_cases hf : a.fileExists
  · by_cases hb : a.baseName = "Chart.yaml"
    · by_cases he : (validate_chart_yaml parse a.content).isEmpty
      · exact ⟨["✅ " ++ a.pathStr ++ ": Valid"], by simp [hf, hb, he]⟩
      · exact ⟨("❌ " ++ a.pathStr ++ ":") :: validate_chart_yaml parse a.content,
          by simp [hf, hb, he]⟩
    · exact ⟨[], by simp [hf, hb]⟩
  · exact ⟨["❌ " ++ a.pathStr ++ ": File not found"], by simp [hf]⟩

theorem fold_snd_grows (parse : String → Except String Yaml) :
    ∀ (args : List PathArg) (acc : Nat × List String),
      ∃ t, (args.foldl (processArg parse) acc).snd = acc.snd ++ t := by
  intro args
  induction args with
  | nil => intro acc; exact ⟨[], by simp⟩
  | cons a rest ih =>
      intro acc
      obtain ⟨s, hs⟩ := processArg_snd parse acc a
      obtain ⟨t, ht⟩ := ih (processArg parse acc a)
      exact ⟨s ++ t, by rw [List.foldl_cons, ht, hs, List.append_assoc]⟩

theorem mem_notFound (parse : String → Except String Yaml) :
    ∀ (args : List PathArg) (acc : Nat × List String) (a : PathArg), a ∈ args →
      a.fileExists = false →
      ("❌ " ++ a.pathStr ++ ": File not found") ∈
        (args.foldl (processArg parse) acc).snd := by
  intro args
  induction args with
  | nil => intro acc a h; simp at h
  | cons x rest ih =>
      intro acc a hmem hf
      rcases List.mem_cons.mp hmem with rfl | hmem₁
      · obtain ⟨t, ht⟩ := fold_snd_grows parse rest (processArg parse acc a)
        rw [List.foldl_cons, ht]
        have hstep : (processArg parse acc a).snd =
            acc.snd ++ ["❌ " ++ a.pathStr ++ ": File not found"] := by
          unfold processArg
          rw [if_pos]
          simp [hf]
        rw [hstep, List.append_assoc]
        simp
      · exact ih (processArg parse acc x) a hmem₁ hf

/-- Claim C10: the existence check precedes the filename filter — a
path that does not exist yields the not-found report line and overall
exit status 1 even when its basename is not `Chart.yaml`, while an
existing path with a different basename is skipped silently (the loop
state is unchanged, so nothing is printed for it). -/
theorem claim_C10 (parse : String → Except String Yaml) (args : List PathArg)
    (a : PathArg) (ha : a ∈ args) (hex : a.fileExists = false)
    (hbn : a.baseName ≠ "Chart.yaml") :
    (mainRun parse args).fst = 1 ∧
    ("❌ " ++ a.pathStr ++ ": File not found") ∈ (mainRun parse args).snd ∧
    (∀ (acc : Nat × List String) (b : PathArg), b.fileExists = true →
      b.baseName ≠ "Chart.yaml" → processArg parse acc b = acc) := by
  have hne : args ≠ [] := by rintro rfl; simp at ha
  refine ⟨?_, ?_, ?_⟩
  · rw [mainRun_fst parse args hne]
    have : args.any (badB parse) = true :=
      List.any_eq_true.mpr ⟨a, ha, (badB_iff parse a).mpr (Or.inl hex)⟩
    simp [this]
  · unfold mainRun
    rw [isEmpty_false_of_ne hne]
    simpa using mem_notFound parse args (0, []) a ha hex
  · intro acc b hbf hbn₁
    simp [processArg, hbf, hbn₁]

end ArtifactHub

namespace ArtifactHub

theorem dictGet_removeKey (k : String) :
    ∀ (l : List (String × Yaml)), dictGet k (removeKey k l) = none := by
  intro l
  induction l with
  | nil => rfl
  | cons p rest ih =>
      obtain ⟨k₁, v⟩ := p
      unfold removeKey
      by_cases h : k₁ = k
      · simp [h, ih]
      · simp [dictGet, h, ih]

theorem chartBody_map (parse : String → Except String Yaml)
    (kvs : List (String × Yaml)) :
    chartBodyErrors parse (.ok (.map kvs)) =
      annotationsErrors parse ((dictGet "annotations" kvs).getD (.map [])) := rfl

theorem chartBody_removed (parse : String → Except String Yaml)
    (kvs : List (String × Yaml)) :
    chartBodyErrors parse (.ok (.map (removeKey "annotations" kvs))) = [] := by
  rw [chartBody_map, dictGet_removeKey]
  rfl

/-- Claim C2: monotonicity round-trip.  If file-level validation of a
manifest that parses to a top-level mapping yields zero errors, then
the manifest with the annotations entry removed (and hence still
tab-free) also yields zero errors; moreover, for every parsed mapping,
removing the annotations entry never introduces new errors — the
pruned manifest's error list is an initial segment of the original
one. -/
theorem claim_C2 (parse parse₂ : String → Except String Yaml)
    (content content₂ : String) (kvs : List (String × Yaml))
    (h1 : validate_chart_yaml parse content = [])
    (h2 : parse content = .ok (.map kvs))
    (h3 : parse₂ content₂ = .ok (.map (removeKey "annotations" kvs)))
    (h4 : pyContainsChar content₂ '\t' = pyContainsChar content '\t') :
    validate_chart_yaml parse₂ content₂ = [] ∧
    (∀ (p : String → Except String Yaml) (tab : Bool) (m : List (String × Yaml)),
      ∃ t, chartDocErrors p tab (.ok (.map m)) =
        chartDocErrors p tab (.ok (.map (removeKey "annotations" m))) ++ t) := by
  constructor
  · have htab : pyContainsChar content '\t' = false := by
      unfold validate_chart_yaml chartDocErrors at h1
      rcases hc : pyContainsChar content '\t'
      · rfl
      · rw [hc] at h1; simp at h1
    unfold validate_chart_yaml chartDocErrors
    rw [h4, htab, h3]
    have := chartBody_removed parse₂ kvs
    rw [this]
    rfl
  · intro p tab m
    refine ⟨chartBodyErrors p (.ok (.map m)), ?_⟩
    unfold chartDocErrors
    rw [chartBody_removed]
    simp

/-- Claim C7: if the raw file text fails to parse, file-level
validation short-circuits — the result is exactly the tab warning
(present precisely when the raw text contains a tab character, since
tab detection happens before parsing) followed by the parse-failure
error, with no annotation-check errors. -/
theorem claim_C7 (parse : String → Except String Yaml) (content e : String)
    (h : parse content = .error e) :
    validate_chart_yaml parse content =
      (if pyContainsChar content '\t' then [tabMsg] else []) ++
        ["  Invalid YAML syntax: " ++ e] := by
  unfold validate_chart_yaml chartDocErrors chartBodyErrors
  rw [h]

/-- Claim C8 (amended): for every file whose text contains no tab
character and parses to a top-level mapping with no `annotations`
entry (or an empty one), file-level validation yields zero errors.
The original claim omitted the tab qualification; see the
counterexample for a tab-containing file that parses to a mapping
without annotations and still gets the tab warning. -/
theorem claim_C8 (parse : String → Except String Yaml) (content : String)
    (kvs : List (String × Yaml))
    (htab : pyContainsChar content '\t' = false)
    (hp : parse content = .ok (.map kvs))
    (hann : dictGet "annotations" kvs = none ∨
      dictGet "annotations" kvs = some (.map [])) :
    validate_chart_yaml parse content = [] := by
  unfold validate_chart_yaml chartDocErrors
  rw [htab, hp, chartBody_map]
  rcases hann with h | h <;> rw [h] <;> rfl

/-- Claim C1 (amended): for every manifest whose annotations map
contains `artifacthub.io/category` with a non-empty string value, a
value not in the fixed 9-member category set yields exactly one error
naming the invalid value and listing the valid set sorted
(`sortedCategories` is sorted and is a permutation of
`VALID_CATEGORIES`), and any value in the set yields zero errors; the
category check's result is spliced into the manifest's annotation
errors.  The original claim extended this to the empty string, but the
code's truthiness guard skips falsy category values — see the
counterexample. -/
theorem claim_C1 (kvs : List (String × Yaml)) (c : String)
    (hc : dictGet "artifacthub.io/category" kvs = some (.str c)) (hne : c ≠ "") :
    categoryErrors kvs = validate_category c ∧
    (c ∈ VALID_CATEGORIES → validate_category c = []) ∧
    (c ∉ VALID_CATEGORIES → validate_category c =
      ["  artifacthub.io/category: Invalid category '" ++ c ++ "'. Must be one of: "
        ++ String.intercalate ", " sortedCategories]) ∧
    String.intercalate ", " sortedCategories =
      "ai-machine-learning, database, integration-delivery, monitoring-logging, networking, security, skip-prediction, storage, streaming-messaging" ∧
    List.Pairwise (fun a b => strLtB a b = true) sortedCategories ∧
    sortedCategories.Perm VALID_CATEGORIES ∧
    (∀ (parse : String → Except String Yaml),
      annotationsErrors parse (.map kvs) =
        knownAnnotationErrors parse kvs ++ categoryErrors kvs ++ boolAnnotationErrors kvs) := by
  refine ⟨?_, ?_, ?_, by decide, by decide, by decide, ?_⟩
  · unfold categoryErrors
    rw [hc]
    simp [pyTruthy, pyStr, hne]
  · intro h; simp [validate_category, h]
  · intro h; simp [validate_category, h]
  · intro parse
    have hkvs : kvs ≠ [] := by rintro rfl; simp [dictGet] at hc
    have htr : pyTruthy (Yaml.map kvs) = true := by
      simp [pyTruthy, isEmpty_false_of_ne hkvs]
    unfold annotationsErrors
    rw [htr]
    rfl

/-- Claim C4: for each boolean-flag annotation key present in the
annotations map, the contribution to the boolean-flag errors is empty
exactly when the value coerced to a lowercase string is `true` or
`false`, and otherwise is a single error naming the offending literal
value; the coercion is case-insensitive (`True` and `FALSE` lower to
valid forms, `yes` does not). -/
theorem claim_C4 (kvs : List (String × Yaml)) (k : String) (v : Yaml)
    (hk : k ∈ BOOL_ANNOTATIONS) (hv : dictGet k kvs = some v) :
    (∃ pre post, boolAnnotationErrors kvs = pre ++ boolAnnotationError k kvs ++ post) ∧
    (pyLower (pyStr v) = "true" ∨ pyLower (pyStr v) = "false" →
      boolAnnotationError k kvs = []) ∧
    (pyLower (pyStr v) ≠ "true" → pyLower (pyStr v) ≠ "false" →
      boolAnnotationError k kvs =
        ["  " ++ k ++ ": Must be 'true' or 'false', got '" ++ pyStr v ++ "'"]) ∧
    pyLower "True" = "true" ∧ pyLower "FALSE" = "false" ∧
    pyLower "yes" ≠ "true" ∧ pyLower "yes" ≠ "false" := by
  refine ⟨?_, ?_, ?_, by decide, by decide, by decide, by decide⟩
  · simp [BOOL_ANNOTATIONS] at hk
    rcases hk with rfl | rfl | rfl
    · exact ⟨[], boolErrorsOf ["artifacthub.io/operator", "artifacthub.io/prerelease"] kvs,
        by simp [boolAnnotationErrors, boolErrorsOf, BOOL_ANNOTATIONS]⟩
    · exact ⟨boolAnnotationError "artifacthub.io/containsSecurityUpdates" kvs,
        boolErrorsOf ["artifacthub.io/prerelease"] kvs,
        by simp [boolAnnotationErrors, boolErrorsOf, BOOL_ANNOTATIONS]⟩
    · exact ⟨boolAnnotationError "artifacthub.io/containsSecurityUpdates" kvs ++
          boolAnnotationError "artifacthub.io/operator" kvs, [],
        by simp [boolAnnotationErrors, boolErrorsOf, BOOL_ANNOTATIONS]⟩
  · intro h
    have hred : boolAnnotationError k kvs =
        if pyLower (pyStr v) = "true" ∨ pyLower (pyStr v) = "false" then []
        else ["  " ++ k ++ ": Must be 'true' or 'false', got '" ++ pyStr v ++ "'"] := by
      unfold boolAnnotationError
      rw [hv]
    rw [hred, if_pos h]
  · intro h1 h2
    have hred : boolAnnotationError k kvs =
        if pyLower (pyStr v) = "true" ∨ pyLower (pyStr v) = "false" then []
        else ["  " ++ k ++ ": Must be 'true' or 'false', got '" ++ pyStr v ++ "'"] := by
      unfold boolAnnotationError
      rw [hv]
    rw [hred, if_neg]
    rintro (h | h)
    · exact h1 h
    · exact h2 h

end ArtifactHub

namespace ArtifactHub

/-- Counterexample to claim C1 as stated: a manifest whose annotations
map holds the category key with the empty-string value (which is not in
the valid set) yields zero errors, because `validate_chart_yaml` guards
the category check with a truthiness test that skips falsy values. -/
theorem claim_C1_counterexample :
    demoParse "annotations:\n  artifacthub.io/category: ''\n" =
      .ok (.map [("annotations", .map [("artifacthub.io/category", .str "")])]) ∧
    dictGet "artifacthub.io/category" [("artifacthub.io/category", Yaml.str "")] =
      some (.str "") ∧
    "" ∉ VALID_CATEGORIES ∧
    validate_chart_yaml demoParse "annotations:\n  artifacthub.io/category: ''\n" = [] :=
  ⟨rfl, rfl, by decide, by decide⟩

/-- Witness for `claim_C1` at the category value `bogus`. -/
theorem claim_C1_witness :
    "bogus" ∉ VALID_CATEGORIES ∧
    categoryErrors [("artifacthub.io/category", Yaml.str "bogus")] =
      ["  artifacthub.io/category: Invalid category 'bogus'. Must be one of: ai-machine-learning, database, integration-delivery, monitoring-logging, networking, security, skip-prediction, storage, streaming-messaging"] := by
  have h := claim_C1 [("artifacthub.io/category", Yaml.str "bogus")] "bogus" rfl (by decide)
  refine ⟨by decide, ?_⟩
  rw [h.1]
  decide

/-- Witness for `claim_C2`: a valid manifest with one boolean
annotation stays valid when the annotations block is removed. -/
theorem claim_C2_witness :
    validate_chart_yaml demoParse
      "name: test\nannotations:\n  artifacthub.io/operator: \"true\"\n" = [] ∧
    validate_chart_yaml demoParse "name: test\n" = [] := by
  have h := claim_C2 demoParse demoParse
    "name: test\nannotations:\n  artifacthub.io/operator: \"true\"\n" "name: test\n"
    [("name", .str "test"), ("annotations", .map [("artifacthub.io/operator", .str "true")])]
    (by decide) rfl rfl rfl
  exact ⟨by decide, h.1⟩

/-- Witness for `claim_C3`: a single missing `Chart.yaml` argument
gives exit status 1. -/
theorem claim_C3_witness :
    ([⟨"missing/Chart.yaml", "Chart.yaml", false, ""⟩] : List PathArg) ≠ [] ∧
    (mainRun demoParse [⟨"missing/Chart.yaml", "Chart.yaml", false, ""⟩]).fst = 1 := by
  have h := claim_C3 demoParse [⟨"missing/Chart.yaml", "Chart.yaml", false, ""⟩]
    (by simp)
  exact ⟨by simp, h.1.mpr (Or.inl ⟨⟨"missing/Chart.yaml", "Chart.yaml", false, ""⟩,
    List.mem_singleton.mpr rfl, rfl⟩)⟩

/-- Witness for `claim_C4` at the value `yes`. -/
theorem claim_C4_witness :
    "artifacthub.io/operator" ∈ BOOL_ANNOTATIONS ∧
    boolAnnotationError "artifacthub.io/operator"
      [("artifacthub.io/operator", Yaml.str "yes")] =
      ["  artifacthub.io/operator: Must be 'true' or 'false', got 'yes'"] := by
  have h := claim_C4 [("artifacthub.io/operator", Yaml.str "yes")]
    "artifacthub.io/operator" (.str "yes") (by decide) rfl
  refine ⟨by decide, ?_⟩
  rw [h.2.2.1 (by decide) (by decide)]
  decide

/-- Witness for `claim_C5`: the spec scenario `- description: x`
yields exactly the one missing-kind error at index 0. -/
theorem claim_C5_witness :
    validateChange 0 (.map [("description", Yaml.str "x")]) =
      changeMsg 0 "Missing required field 'kind'" ::
        (descriptionErrors 0 [("description", Yaml.str "x")] ++
          linksErrors 0 [("description", Yaml.str "x")]) ∧
    validate_changes demoParse "- description: x" =
      ["  artifacthub.io/changes[0]: Missing required field 'kind'"] := by
  have h := claim_C5 demoParse "- description: x"
    [.map [("description", Yaml.str "x")]] 0 [("description", Yaml.str "x")]
    rfl rfl rfl
  exact ⟨h.2.1, by decide⟩

/-- Counterexample to claim C6 as stated: an object element whose
`kind` value is the list `[x]` — present and not a member of the valid
set — contributes no invalid-kind error: the membership test at source
line 71 raises `TypeError` for the unhashable value and the script
aborts with no error emitted. -/
theorem claim_C6_counterexample :
    demoParse "- kind: [x]\n  description: y" =
      .ok (.list [.map [("kind", .list [.str "x"]), ("description", .str "y")]]) ∧
    isValidKind (Yaml.list [.str "x"]) = false ∧
    validateChangeE 0 (.map [("kind", Yaml.list [.str "x"]), ("description", Yaml.str "y")]) =
      .error "TypeError: unhashable type: 'list'" ∧
    validate_changesE demoParse "- kind: [x]\n  description: y" =
      .error "TypeError: unhashable type: 'list'" :=
  ⟨rfl, by decide, rfl, rfl⟩

/-- Witness for `claim_C6` at the hashable kind value `invalid`. -/
theorem claim_C6_witness :
    isHashable (Yaml.str "invalid") = true ∧
    isValidKind (Yaml.str "invalid") = false ∧
    validateChangeE 0 (.map [("kind", Yaml.str "invalid"), ("description", Yaml.str "x")]) =
      .ok (changeMsg 0 ("Invalid kind '" ++ pyStr (Yaml.str "invalid") ++ "'. Must be one of: "
          ++ String.intercalate ", " sortedChangeKinds) ::
        (descriptionErrors 0 [("kind", Yaml.str "invalid"), ("description", Yaml.str "x")] ++
          linksErrors 0 [("kind", Yaml.str "invalid"), ("description", Yaml.str "x")])) ∧
    validate_changesE demoParse "- kind: invalid\n  description: x" =
      .ok ["  artifacthub.io/changes[0]: Invalid kind 'invalid'. Must be one of: added, changed, deprecated, fixed, removed, security"] := by
  have h := claim_C6 demoParse "- kind: invalid\n  description: x"
    [.map [("kind", Yaml.str "invalid"), ("description", Yaml.str "x")]] 0
    [("kind", Yaml.str "invalid"), ("description", Yaml.str "x")] (.str "invalid")
    rfl rfl rfl (by decide) (by decide)
  exact ⟨by decide, by decide, h.1, rfl⟩

/-- Witness for `claim_C7`: an unparsable document with a tab gets
both the tab warning and the syntax error. -/
theorem claim_C7_witness :
    pyContainsChar "\ta: [" '\t' = true ∧
    validate_chart_yaml demoParse "\ta: [" =
      [tabMsg, "  Invalid YAML syntax: could not parse"] := by
  have h := claim_C7 demoParse "\ta: [" "could not parse" rfl
  refine ⟨by decide, ?_⟩
  rw [h]
  decide

/-- Counterexample to claim C8 as stated: a document whose raw text
contains a tab inside a double-quoted scalar parses to a mapping with
no annotations key, yet file-level validation reports the tab warning,
so the error list is not empty. -/
theorem claim_C8_counterexample :
    demoParse "a: \"x\ty\"" = .ok (.map [("a", .str "x\ty")]) ∧
    dictGet "annotations" [("a", Yaml.str "x\ty")] = none ∧
    validate_chart_yaml demoParse "a: \"x\ty\"" = [tabMsg] ∧
    ([tabMsg] : List String) ≠ [] :=
  ⟨rfl, rfl, by decide, by decide⟩

/-- Witness for `claim_C8`: a tab-free manifest without annotations
validates cleanly. -/
theorem claim_C8_witness :
    pyContainsChar "name: test\n" '\t' = false ∧
    validate_chart_yaml demoParse "name: test\n" = [] :=
  ⟨by decide, claim_C8 demoParse "name: test\n" [("name", .str "test")]
    (by decide) rfl (Or.inl rfl)⟩

/-- Counterexample to claim C9 as stated: in the first element the
`kind` value is a list, so the membership test at source line 71
raises `TypeError` and validation aborts — the second element, whose
own violations would contribute two errors, is never visited and no
error list is produced at all. -/
theorem claim_C9_counterexample :
    demoParse "- kind: []\n  description: x\n- \x7b\x7d" =
      .ok (.list [.map [("kind", .list []), ("description", .str "x")], .map []]) ∧
    validate_changesE demoParse "- kind: []\n  description: x\n- \x7b\x7d" =
      .error "TypeError: unhashable type: 'list'" ∧
    validateChange 1 (.map []) =
      [changeMsg 1 "Missing required field 'kind'",
       changeMsg 1 "Missing required field 'description'"] :=
  ⟨rfl, rfl, by decide⟩

/-- Witness for `claim_C9` on a two-element changes list with hashable
kinds. -/
theorem claim_C9_witness :
    changesLoopE 0 ([Yaml.str "a"] ++ [Yaml.map []]) =
      (changesLoopE 0 [Yaml.str "a"]).bind
        (fun a => (changesLoopE (0 + [Yaml.str "a"].length) [Yaml.map []]).map
          (fun b => a ++ b)) ∧
    ([Yaml.str "a", Yaml.map []].all changeKindHashable = true) ∧
    changesLoopE 0 [Yaml.str "a", Yaml.map []] =
      .ok (changesLoop 0 [Yaml.str "a", Yaml.map []]) ∧
    validate_changesE demoParse "- a\n- \x7b\x7d" =
      changesLoopE 0 [Yaml.str "a", Yaml.map []] ∧
    (∃ pre post, changesLoop 0 [Yaml.str "a", Yaml.map []] =
      pre ++ validateChange 1 (Yaml.map []) ++ post) := by
  have h := claim_C9 0 0 [Yaml.str "a"] [Yaml.map []] [] []
  have h₂ := claim_C9 0 0 [Yaml.str "a", Yaml.map []] [] [] []
  exact ⟨h.1, by decide, h₂.2.1 (by decide),
    h₂.2.2.2.2.1 demoParse "- a\n- \x7b\x7d" rfl,
    h₂.2.2.2.2.2.1 1 (Yaml.map []) rfl⟩

/-- Witness for `claim_C10`: a missing path whose basename is not
`Chart.yaml` still fails the run and is reported. -/
theorem claim_C10_witness :
    (⟨"README.md", "README.md", false, ""⟩ : PathArg) ∈
      ([⟨"README.md", "README.md", false, ""⟩] : List PathArg) ∧
    (mainRun demoParse [⟨"README.md", "README.md", false, ""⟩]).fst = 1 ∧
    ("❌ " ++ "README.md" ++ ": File not found") ∈
      (mainRun demoParse [⟨"README.md", "README.md", false, ""⟩]).snd := by
  have h := claim_C10 demoParse [⟨"README.md", "README.md", false, ""⟩]
    ⟨"README.md", "README.md", false, ""⟩ (List.mem_singleton.mpr rfl) rfl (by decide)
  exact ⟨List.mem_singleton.mpr rfl, h.1, h.2.1⟩

end ArtifactHub
